import Mathlib

/-!
Verification of the sentiment-analysis / entity-extraction pipeline of
`src/ai/sentiment/analyzer.py` (classes `SentimentAnalyzer`,
`NamedEntityRecognizer`, `SentimentAnalysisService`).

Shallow embedding conventions:
* Raw classifier scores and normalized sentiment scores are modelled as
  rationals (`ℚ`); the Python code uses floats but every constant the
  claims mention (0.1, 0.5, 2) is exactly representable, and the
  comparison logic is identical.
* The pretrained pipelines are opaque callables that can raise, modelled
  as functions `String → Except String _` (the `Except.error` branch is
  the raised exception, carrying `str(e)`).
* `datetime.utcnow().isoformat()` is modelled by an explicit `now`
  parameter (explicit state passing of the clock).
* Python dictionaries returned by the functions are modelled as
  structures whose fields are exactly the keys the code writes; a key
  present only on some paths (`error`, `raw_result`) is an `Option`.
* Python `'needle' in haystack` on strings is substring containment,
  modelled as `List.IsInfix` (`<:+:`) on the character lists.
* Python `str.isupper()` is: the string has at least one cased character
  and all its cased characters are upper-case.  Cased characters are
  modelled as letters (the inputs at issue are ASCII).
-/

namespace SentientTrader

/-- Output dictionary of one `pipeline(text)[0]` call of the
Hugging Face sentiment pipeline: a label string and a score. -/
structure RawResult where
  label : String
  score : ℚ
  deriving Repr, DecidableEq

/-- Python `str.lower()` (ASCII-faithful). -/
def strLower (s : String) : String := ⟨s.data.map Char.toLower⟩

/-- Python `'needle' in haystack` as a decidable proposition on strings. -/
def strIn (needle haystack : String) : Prop := needle.data <:+: haystack.data

instance (needle haystack : String) : Decidable (strIn needle haystack) :=
  List.decidableInfix needle.data haystack.data

/-- `SentimentAnalyzer._normalize_sentiment_score`
(src/ai/sentiment/analyzer.py lines 119-141): normalize the raw model
output to the range [-1, 1]. -/
def normalize_sentiment_score (result : RawResult) : ℚ :=
  let label := strLower result.label
  let score := result.score
  if strIn "positive" label then
    score
  else if strIn "negative" label then
    -score
  else if strIn "neutral" label then
    0
  else
    (score - 1/2) * 2

/-- `SentimentAnalyzer._get_sentiment_label`
(src/ai/sentiment/analyzer.py lines 143-158): three-way label
from the normalized score with fixed thresholds. -/
def get_sentiment_label (sentiment_score : ℚ) : String :=
  if sentiment_score > 1/10 then
    "positive"
  else if sentiment_score < -1/10 then
    "negative"
  else
    "neutral"

/-- Return dictionary of `SentimentAnalyzer.analyze_text`.  The success
dictionary has a `raw_result` key and no `error` key; the fallback
dictionary has `error` and no `raw_result`; both are `Option`s here. -/
structure SentimentOutput where
  sentiment_score : ℚ
  sentiment_label : String
  confidence_score : ℚ
  raw_result : Option RawResult
  error : Option String
  model_used : String
  analysis_timestamp : String
  deriving Repr, DecidableEq

/-- `SentimentAnalyzer.analyze_text` (src/ai/sentiment/analyzer.py lines
58-99).  `classifier` models `self.pipeline(text)[0]`, `model_name`
models `self.model_name`, `now` models `datetime.utcnow().isoformat()`.
Any exception from the pipeline call is caught and converted into the
zero/neutral fallback dictionary carrying the error string. -/
def analyze_text (classifier : String → Except String RawResult)
    (model_name now : String) (text : String) : SentimentOutput :=
  match classifier text with
  | Except.ok result =>
      let sentiment_score := normalize_sentiment_score result
      let sentiment_label := get_sentiment_label sentiment_score
      let confidence_score := result.score
      { sentiment_score := sentiment_score
        sentiment_label := sentiment_label
        confidence_score := confidence_score
        raw_result := some result
        error := none
        model_used := model_name
        analysis_timestamp := now }
  | Except.error e =>
      { sentiment_score := 0
        sentiment_label := "neutral"
        confidence_score := 0
        raw_result := none
        error := some e
        model_used := model_name
        analysis_timestamp := now }

/-- `SentimentAnalyzer.analyze_batch` (src/ai/sentiment/analyzer.py lines
101-117): the sequential `for text in texts: results.append(...)` loop. -/
def analyze_batch (classifier : String → Except String RawResult)
    (model_name now : String) : List String → List SentimentOutput
  | [] => []
  | text :: texts =>
      analyze_text classifier model_name now text ::
        analyze_batch classifier model_name now texts

/-- One tagged span of the NER pipeline output: the dictionary keys
`word` and `entity` that `extract_entities` reads. -/
structure Entity where
  word : String
  entity : String
  deriving Repr, DecidableEq

/-- A character is cased (for Python `str.isupper`) when it is a letter;
the spans at issue are ASCII. -/
def isCased (c : Char) : Bool := c.isAlpha

/-- Python `str.isupper()`: at least one cased character, and every
cased character is upper-case. -/
def str_isupper (s : String) : Bool :=
  s.data.any (fun c => isCased c) &&
    s.data.all (fun c => !isCased c || c.isUpper)

/-- The four entity buckets returned by
`NamedEntityRecognizer.extract_entities`. -/
structure EntityBuckets where
  companies : List String
  stocks : List String
  locations : List String
  persons : List String
  deriving Repr, DecidableEq

/-- One iteration of the `for entity in entities` loop of
`NamedEntityRecognizer.extract_entities` (src/ai/sentiment/analyzer.py
lines 227-240): append the span's word to the bucket its tag and shape
select. -/
def entStep (acc : EntityBuckets) (ent : Entity) : EntityBuckets :=
  if ent.entity = "ORG" ∨ ent.entity = "MISC" then
    if str_isupper ent.word ∧ ent.word.length ≤ 5 then
      { acc with stocks := acc.stocks ++ [ent.word] }
    else
      { acc with companies := acc.companies ++ [ent.word] }
  else if ent.entity = "LOC" then
    { acc with locations := acc.locations ++ [ent.word] }
  else if ent.entity = "PER" then
    { acc with persons := acc.persons ++ [ent.word] }
  else
    acc

/-- The whole classification loop, starting from the four empty lists. -/
def classifyEntities (entities : List Entity) : EntityBuckets :=
  entities.foldl entStep ⟨[], [], [], []⟩

/-- The branch of the classification loop that appends to the stock
bucket: tag ORG or MISC, word fully upper-case and at most 5 chars. -/
def stockCond (e : Entity) : Prop :=
  (e.entity = "ORG" ∨ e.entity = "MISC") ∧
    (str_isupper e.word ∧ e.word.length ≤ 5)

/-- The branch that appends to the company bucket: tag ORG or MISC but
the ticker shape test fails. -/
def companyCond (e : Entity) : Prop :=
  (e.entity = "ORG" ∨ e.entity = "MISC") ∧
    ¬ (str_isupper e.word ∧ e.word.length ≤ 5)

/-- The branch that appends to the location bucket. -/
def locCond (e : Entity) : Prop :=
  ¬ (e.entity = "ORG" ∨ e.entity = "MISC") ∧ e.entity = "LOC"

/-- The branch that appends to the person bucket. -/
def perCond (e : Entity) : Prop :=
  ¬ (e.entity = "ORG" ∨ e.entity = "MISC") ∧ e.entity ≠ "LOC" ∧
    e.entity = "PER"

instance (e : Entity) : Decidable (stockCond e) := by
  unfold stockCond; infer_instance

instance (e : Entity) : Decidable (companyCond e) := by
  unfold companyCond; infer_instance

instance (e : Entity) : Decidable (locCond e) := by
  unfold locCond; infer_instance

instance (e : Entity) : Decidable (perCond e) := by
  unfold perCond; infer_instance

/-- `NamedEntityRecognizer.extract_entities` (src/ai/sentiment/analyzer.py
lines 208-256).  `recognizer` models `self.pipeline(text)`.  The final
`list(set(...))` per bucket is modelled by `List.dedup` (per-bucket set
semantics); a raised exception yields the four empty buckets. -/
def extract_entities (recognizer : String → Except String (List Entity))
    (text : String) : EntityBuckets :=
  match recognizer text with
  | Except.ok entities =>
      let buckets := classifyEntities entities
      { companies := buckets.companies.dedup
        stocks := buckets.stocks.dedup
        locations := buckets.locations.dedup
        persons := buckets.persons.dedup }
  | Except.error _ =>
      { companies := [], stocks := [], locations := [], persons := [] }

/-- Return dictionary of
`SentimentAnalysisService.analyze_social_media_post`: exactly the keys
the code writes (note: only the stock and company buckets of the entity
result appear in it). -/
structure AnalysisRecord where
  post_id : ℤ
  kol_id : ℤ
  sentiment_score : ℚ
  sentiment_label : String
  confidence_score : ℚ
  mentioned_stocks : List String
  mentioned_companies : List String
  error : Option String
  model_used : String
  analysis_timestamp : String
  deriving Repr, DecidableEq

/-- `SentimentAnalysisService.analyze_social_media_post`
(src/ai/sentiment/analyzer.py lines 274-322).  Both subcalls trap their
own exceptions and return total fallback dictionaries, so the
surrounding `try` body cannot raise and the outer `except` branch
(which would set an `error` key) is unreachable: the merged record
always has `error := none`. -/
def analyze_social_media_post
    (classifier : String → Except String RawResult)
    (recognizer : String → Except String (List Entity))
    (model_name now : String)
    (text : String) (kol_id post_id : ℤ) : AnalysisRecord :=
  let sentiment_result := analyze_text classifier model_name now text
  let entities := extract_entities recognizer text
  { post_id := post_id
    kol_id := kol_id
    sentiment_score := sentiment_result.sentiment_score
    sentiment_label := sentiment_result.sentiment_label
    confidence_score := sentiment_result.confidence_score
    mentioned_stocks := entities.stocks
    mentioned_companies := entities.companies
    error := none
    model_used := sentiment_result.model_used
    analysis_timestamp := now }

/-! ## Theorems: sentiment normalization and labelling -/

/-- C1: the normalized sentiment score is computed by testing the
lowercased label in order: a label containing "positive" yields the raw
score, else one containing "negative" yields its negation, else one
containing "neutral" yields 0 regardless of the score, and any other
label yields (score - 0.5) * 2. -/
theorem C1_normalize_order (label : String) (s : ℚ) :
    (strIn "positive" (strLower label) →
      normalize_sentiment_score ⟨label, s⟩ = s) ∧
    (¬ strIn "positive" (strLower label) →
      strIn "negative" (strLower label) →
      normalize_sentiment_score ⟨label, s⟩ = -s) ∧
    (¬ strIn "positive" (strLower label) →
      ¬ strIn "negative" (strLower label) →
      strIn "neutral" (strLower label) →
      normalize_sentiment_score ⟨label, s⟩ = 0) ∧
    (¬ strIn "positive" (strLower label) →
      ¬ strIn "negative" (strLower label) →
      ¬ strIn "neutral" (strLower label) →
      normalize_sentiment_score ⟨label, s⟩ = (s - 1/2) * 2) := by
  unfold normalize_sentiment_score
  refine ⟨fun h1 => ?_, fun h1 h2 => ?_, fun h1 h2 h3 => ?_,
    fun h1 h2 h3 => ?_⟩ <;> simp only [] <;> split_ifs <;> rfl

/-- Witness for C1 at the unrecognized label "LABEL_1" with raw score
0.9: none of the three keywords occurs, so the linear remap applies. -/
theorem C1_normalize_order_witness :
    normalize_sentiment_score ⟨"LABEL_1", 9/10⟩ = (9/10 - 1/2) * 2 :=
  (C1_normalize_order "LABEL_1" (9/10)).2.2.2
    (by decide) (by decide) (by decide)

/-- C2: the sentiment label is a pure function of the normalized score:
above 0.1 it is "positive", below -0.1 it is "negative", and the whole
closed interval [-0.1, 0.1] (boundaries included) is "neutral". -/
theorem C2_label_thresholds (s : ℚ) :
    (1/10 < s → get_sentiment_label s = "positive") ∧
    (s < -(1/10) → get_sentiment_label s = "negative") ∧
    (-(1/10) ≤ s → s ≤ 1/10 → get_sentiment_label s = "neutral") := by
  unfold get_sentiment_label
  refine ⟨fun h1 => ?_, fun h1 => ?_, fun h1 h2 => ?_⟩ <;>
    split_ifs <;> first | rfl | linarith

/-- Witness for C2 at 0.15 (positive), -0.15 (negative), and the two
boundary points 0.1 and -0.1 (both neutral). -/
theorem C2_label_thresholds_witness :
    get_sentiment_label (15/100) = "positive" ∧
    get_sentiment_label (-(15/100)) = "negative" ∧
    get_sentiment_label (1/10) = "neutral" ∧
    get_sentiment_label (-(1/10)) = "neutral" :=
  ⟨(C2_label_thresholds (15/100)).1 (by norm_num),
   (C2_label_thresholds (-(15/100))).2.1 (by norm_num),
   (C2_label_thresholds (1/10)).2.2 (by norm_num) (by norm_num),
   (C2_label_thresholds (-(1/10))).2.2 (by norm_num) (by norm_num)⟩

/-- C4: when the underlying classify call raises, `analyze_text` does
not propagate the exception: it returns the fallback dictionary with
score 0, label "neutral", confidence 0, and the error detail. -/
theorem C4_analyze_error_fallback
    (classifier : String → Except String RawResult)
    (model_name now text err : String)
    (h : classifier text = Except.error err) :
    analyze_text classifier model_name now text =
      { sentiment_score := 0
        sentiment_label := "neutral"
        confidence_score := 0
        raw_result := none
        error := some err
        model_used := model_name
        analysis_timestamp := now } := by
  unfold analyze_text
  rw [h]

/-- Witness for C4 with a classifier that always raises. -/
theorem C4_analyze_error_fallback_witness :
    analyze_text (fun _ => Except.error "model crashed") "m" "now" "txt" =
      { sentiment_score := 0
        sentiment_label := "neutral"
        confidence_score := 0
        raw_result := none
        error := some "model crashed"
        model_used := "m"
        analysis_timestamp := "now" } :=
  C4_analyze_error_fallback (fun _ => Except.error "model crashed")
    "m" "now" "txt" "model crashed" rfl

/-- C6: `analyze_batch` returns one result per input, in input order:
the output has the same length as the input and its i-th element is
exactly the analysis of the i-th text; in particular, an item whose
classify call fails contributes its fallback record instead of being
dropped. -/
theorem C6_batch_order
    (classifier : String → Except String RawResult)
    (model_name now : String) (texts : List String) :
    (analyze_batch classifier model_name now texts).length = texts.length ∧
    (∀ i : ℕ, (analyze_batch classifier model_name now texts).get? i =
      (texts.get? i).map (analyze_text classifier model_name now)) := by
  induction texts with
  | nil => exact ⟨rfl, fun i => rfl⟩
  | cons t ts ih =>
      refine ⟨?_, fun i => ?_⟩
      · simpa [analyze_batch] using ih.1
      · cases i with
        | zero => rfl
        | succ j => simpa [analyze_batch] using ih.2 j

/-- Witness for C6: a three-element batch under an always-failing
classifier still yields three results. -/
theorem C6_batch_order_witness :
    (analyze_batch (fun _ => Except.error "boom") "m" "now"
      ["a", "b", "c"]).length = 3 :=
  (C6_batch_order (fun _ => Except.error "boom") "m" "now"
    ["a", "b", "c"]).1

/-! ## Lemmas about the entity classification loop -/

/-- One loop iteration appends the word to exactly the bucket whose
branch condition holds (at most one of the four holds). -/
theorem entStep_eq (acc : EntityBuckets) (e : Entity) :
    entStep acc e =
      { companies := acc.companies ++ if companyCond e then [e.word] else []
        stocks := acc.stocks ++ if stockCond e then [e.word] else []
        locations := acc.locations ++ if locCond e then [e.word] else []
        persons := acc.persons ++ if perCond e then [e.word] else [] } := by
  unfold entStep companyCond stockCond locCond perCond
  split_ifs <;> simp_all

/-- Running the loop from an arbitrary accumulator prepends the
accumulator to the result of running it from the empty buckets. -/
theorem foldl_entStep_eq (es : List Entity) (acc : EntityBuckets) :
    es.foldl entStep acc =
      { companies := acc.companies ++ (classifyEntities es).companies
        stocks := acc.stocks ++ (classifyEntities es).stocks
        locations := acc.locations ++ (classifyEntities es).locations
        persons := acc.persons ++ (classifyEntities es).persons } := by
  induction es generalizing acc with
  | nil => simp [classifyEntities]
  | cons e es ih =>
      have hc : classifyEntities (e :: es) =
          es.foldl entStep (entStep ⟨[], [], [], []⟩ e) := rfl
      rw [List.foldl_cons, ih (entStep acc e), hc,
        ih (entStep ⟨[], [], [], []⟩ e), entStep_eq acc e,
        entStep_eq ⟨[], [], [], []⟩ e]
      simp [List.append_assoc]

/-- Closed form of the classification loop: each bucket is the list of
words of the entities satisfying that bucket's branch condition, in
input order. -/
theorem classifyEntities_eq (es : List Entity) :
    classifyEntities es =
      { companies :=
          (es.filter fun e => decide (companyCond e)).map Entity.word
        stocks := (es.filter fun e => decide (stockCond e)).map Entity.word
        locations := (es.filter fun e => decide (locCond e)).map Entity.word
        persons := (es.filter fun e => decide (perCond e)).map Entity.word }
    := by
  induction es with
  | nil => rfl
  | cons e es ih =>
      have hc : classifyEntities (e :: es) =
          es.foldl entStep (entStep ⟨[], [], [], []⟩ e) := rfl
      rw [hc, foldl_entStep_eq es (entStep ⟨[], [], [], []⟩ e), ih,
        entStep_eq ⟨[], [], [], []⟩ e]
      simp only [EntityBuckets.mk.injEq, List.filter_cons]
      refine ⟨?_, ?_, ?_, ?_⟩ <;> split_ifs <;>
        simp_all

/-- Membership in a bucket of `extract_entities` on a successful
recognizer call, in terms of the branch conditions. -/
theorem mem_extract (recognizer : String → Except String (List Entity))
    (text : String) (es : List Entity)
    (h : recognizer text = Except.ok es) (w : String) :
    (w ∈ (extract_entities recognizer text).companies ↔
       ∃ e ∈ es, e.word = w ∧ companyCond e) ∧
    (w ∈ (extract_entities recognizer text).stocks ↔
       ∃ e ∈ es, e.word = w ∧ stockCond e) ∧
    (w ∈ (extract_entities recognizer text).locations ↔
       ∃ e ∈ es, e.word = w ∧ locCond e) ∧
    (w ∈ (extract_entities recognizer text).persons ↔
       ∃ e ∈ es, e.word = w ∧ perCond e) := by
  unfold extract_entities
  rw [h]
  simp only [classifyEntities_eq, List.mem_dedup, List.mem_map,
    List.mem_filter, decide_eq_true_eq]
  refine ⟨?_, ?_, ?_, ?_⟩ <;>
    exact ⟨fun ⟨e, ⟨he, hcond⟩, hw⟩ => ⟨e, he, hw, hcond⟩,
      fun ⟨e, he, hw, hcond⟩ => ⟨e, ⟨he, hcond⟩, hw⟩⟩

/-- The LOC branch condition reduces to the tag test alone, because a
span tagged "LOC" never satisfies the ORG/MISC test. -/
theorem locCond_iff (e : Entity) : locCond e ↔ e.entity = "LOC" := by
  unfold locCond
  constructor
  · exact fun h => h.2
  · intro h
    refine ⟨?_, h⟩
    rw [h]
    decide

/-- The PER branch condition reduces to the tag test alone. -/
theorem perCond_iff (e : Entity) : perCond e ↔ e.entity = "PER" := by
  unfold perCond
  constructor
  · exact fun h => h.2.2
  · intro h
    rw [h]
    exact ⟨by decide, by decide, rfl⟩

/-! ## Theorems: entity extraction -/

/-- C3: each recognized span lands in exactly the bucket its tag and
shape select — ORG/MISC spans that pass the ticker shape test (fully
upper-case, length at most 5) in the ticker bucket, other ORG/MISC
spans in the company bucket, LOC spans in the location bucket, PER
spans in the person bucket — and a word is in a bucket only via a span
of that branch. -/
theorem C3_bucket_assignment
    (recognizer : String → Except String (List Entity)) (text : String)
    (es : List Entity) (h : recognizer text = Except.ok es) (w : String) :
    (w ∈ (extract_entities recognizer text).stocks ↔
       ∃ e ∈ es, e.word = w ∧ (e.entity = "ORG" ∨ e.entity = "MISC") ∧
         str_isupper e.word ∧ e.word.length ≤ 5) ∧
    (w ∈ (extract_entities recognizer text).companies ↔
       ∃ e ∈ es, e.word = w ∧ (e.entity = "ORG" ∨ e.entity = "MISC") ∧
         ¬ (str_isupper e.word ∧ e.word.length ≤ 5)) ∧
    (w ∈ (extract_entities recognizer text).locations ↔
       ∃ e ∈ es, e.word = w ∧ e.entity = "LOC") ∧
    (w ∈ (extract_entities recognizer text).persons ↔
       ∃ e ∈ es, e.word = w ∧ e.entity = "PER") := by
  have H := mem_extract recognizer text es h w
  refine ⟨?_, ?_, ?_, ?_⟩
  · simpa only [stockCond] using H.2.1
  · simpa only [companyCond] using H.1
  · simpa only [locCond_iff] using H.2.2.1
  · simpa only [perCond_iff] using H.2.2.2

/-- Witness for C3: "AAPL" tagged ORG is in the ticker bucket. -/
theorem C3_bucket_assignment_witness :
    "AAPL" ∈ (extract_entities
      (fun _ => Except.ok [Entity.mk "AAPL" "ORG"]) "t").stocks :=
  ((C3_bucket_assignment _ "t" [Entity.mk "AAPL" "ORG"] rfl "AAPL").1).mpr
    ⟨Entity.mk "AAPL" "ORG", by simp, rfl, Or.inl rfl, by decide, by decide⟩

/-- C5: a recognizer error yields the four empty buckets, never an
exception (the embedding is a total function into the bucket record). -/
theorem C5_recognizer_error_fallback
    (recognizer : String → Except String (List Entity))
    (text err : String) (h : recognizer text = Except.error err) :
    extract_entities recognizer text =
      { companies := [], stocks := [], locations := [], persons := [] } := by
  unfold extract_entities
  rw [h]

/-- Witness for C5 with a recognizer that always raises. -/
theorem C5_recognizer_error_fallback_witness :
    extract_entities (fun _ => Except.error "ner crashed") "txt" =
      { companies := [], stocks := [], locations := [], persons := [] } :=
  C5_recognizer_error_fallback (fun _ => Except.error "ner crashed")
    "txt" "ner crashed" rfl

/-- C9: every bucket is duplicate-free, and two calls on which the
recognizer yields identical span sequences produce identical (hence
set-equal) buckets. -/
theorem C9_dedup_and_determinism
    (rec1 rec2 : String → Except String (List Entity)) (t1 t2 : String)
    (h : rec1 t1 = rec2 t2) :
    ((extract_entities rec1 t1).companies.Nodup ∧
     (extract_entities rec1 t1).stocks.Nodup ∧
     (extract_entities rec1 t1).locations.Nodup ∧
     (extract_entities rec1 t1).persons.Nodup) ∧
    extract_entities rec1 t1 = extract_entities rec2 t2 := by
  constructor
  · unfold extract_entities
    cases rec1 t1 <;> simp [List.nodup_dedup]
  · unfold extract_entities
    rw [h]

/-- Witness for C9: the same recognizer output seen on two different
texts gives identical buckets. -/
theorem C9_dedup_and_determinism_witness :
    extract_entities (fun _ => Except.ok [Entity.mk "AAPL" "ORG"]) "a" =
      extract_entities (fun _ => Except.ok [Entity.mk "AAPL" "ORG"]) "b" :=
  (C9_dedup_and_determinism _ _ "a" "b" rfl).2

/-- C10: an ORG/MISC span of length at most 5 with no cased character
(e.g. a digits-only string) fails Python `isupper` and is therefore a
company, not a ticker. -/
theorem C10_uncased_short_is_company (e : Entity) (text : String)
    (h1 : e.entity = "ORG" ∨ e.entity = "MISC")
    (h2 : e.word.length ≤ 5)
    (h3 : ∀ c ∈ e.word.data, isCased c = false) :
    str_isupper e.word = false ∧
    extract_entities (fun _ => Except.ok [e]) text =
      { companies := [e.word], stocks := [], locations := [],
        persons := [] } := by
  have hany : e.word.data.any (fun c => isCased c) = false := by
    simp only [List.any_eq_false]
    intro c hc
    simp [h3 c hc]
  have hupper : str_isupper e.word = false := by
    unfold str_isupper
    rw [hany]
    rfl
  refine ⟨hupper, ?_⟩
  have hok : extract_entities (fun _ => Except.ok [e]) text =
      { companies := (classifyEntities [e]).companies.dedup
        stocks := (classifyEntities [e]).stocks.dedup
        locations := (classifyEntities [e]).locations.dedup
        persons := (classifyEntities [e]).persons.dedup } := rfl
  rw [hok, classifyEntities_eq]
  have hloc : e.entity ≠ "LOC" := by
    rcases h1 with h | h <;> simp [h]
  have hper : e.entity ≠ "PER" := by
    rcases h1 with h | h <;> simp [h]
  simp [companyCond, stockCond, locCond, perCond, hupper, h1, hloc, hper]

/-- Witness for C10 at the digits-only ORG span "360". -/
theorem C10_uncased_short_is_company_witness :
    str_isupper "360" = false ∧
    extract_entities (fun _ => Except.ok [Entity.mk "360" "ORG"]) "t" =
      { companies := ["360"], stocks := [], locations := [],
        persons := [] } :=
  C10_uncased_short_is_company (Entity.mk "360" "ORG") "t"
    (Or.inl rfl) (by decide) (by decide)

/-! ## Theorems: the merged per-post record -/

/-- Counterexample to C7 as stated: with a failing classifier and a
succeeding recognizer, the merged record does report the recognizer's
buckets, yet its `error` field is `none` — the sentiment failure detail
(trapped inside `analyze_text`) is not flagged on the merged record. -/
theorem C7_no_error_flag_counterexample :
    (analyze_social_media_post (fun _ => Except.error "model crashed")
      (fun _ => Except.ok [Entity.mk "TSLA" "ORG"]) "m" "now" "txt" 1 2
      ).mentioned_stocks = ["TSLA"] ∧
    (analyze_social_media_post (fun _ => Except.error "model crashed")
      (fun _ => Except.ok [Entity.mk "TSLA" "ORG"]) "m" "now" "txt" 1 2
      ).error = none :=
  ⟨rfl, rfl⟩

/-- C7 amended: a failure of one component does not prevent the other's
result from appearing in the merged record — the failed component is
replaced by its documented fallback values — but the merged record does
not carry the failure detail (its `error` field stays `none`). -/
theorem C7_independent_failure
    (classifier : String → Except String RawResult)
    (recognizer : String → Except String (List Entity))
    (model_name now text : String) (kol_id post_id : ℤ) :
    (∀ err, classifier text = Except.error err →
      (analyze_social_media_post classifier recognizer model_name now
        text kol_id post_id).mentioned_stocks =
          (extract_entities recognizer text).stocks ∧
      (analyze_social_media_post classifier recognizer model_name now
        text kol_id post_id).mentioned_companies =
          (extract_entities recognizer text).companies ∧
      (analyze_social_media_post classifier recognizer model_name now
        text kol_id post_id).sentiment_score = 0 ∧
      (analyze_social_media_post classifier recognizer model_name now
        text kol_id post_id).sentiment_label = "neutral" ∧
      (analyze_social_media_post classifier recognizer model_name now
        text kol_id post_id).confidence_score = 0 ∧
      (analyze_social_media_post classifier recognizer model_name now
        text kol_id post_id).error = none) ∧
    (∀ err, recognizer text = Except.error err →
      (analyze_social_media_post classifier recognizer model_name now
        text kol_id post_id).sentiment_score =
          (analyze_text classifier model_name now text).sentiment_score ∧
      (analyze_social_media_post classifier recognizer model_name now
        text kol_id post_id).sentiment_label =
          (analyze_text classifier model_name now text).sentiment_label ∧
      (analyze_social_media_post classifier recognizer model_name now
        text kol_id post_id).confidence_score =
          (analyze_text classifier model_name now text).confidence_score ∧
      (analyze_social_media_post classifier recognizer model_name now
        text kol_id post_id).mentioned_stocks = [] ∧
      (analyze_social_media_post classifier recognizer model_name now
        text kol_id post_id).mentioned_companies = [] ∧
      (analyze_social_media_post classifier recognizer model_name now
        text kol_id post_id).error = none) := by
  constructor
  · intro err herr
    have hs : analyze_text classifier model_name now text =
        { sentiment_score := 0, sentiment_label := "neutral",
          confidence_score := 0, raw_result := none, error := some err,
          model_used := model_name, analysis_timestamp := now } := by
      unfold analyze_text
      rw [herr]
    unfold analyze_social_media_post
    rw [hs]
    exact ⟨rfl, rfl, rfl, rfl, rfl, rfl⟩
  · intro err herr
    have he : extract_entities recognizer text =
        { companies := [], stocks := [], locations := [],
          persons := [] } := by
      unfold extract_entities
      rw [herr]
    unfold analyze_social_media_post
    rw [he]
    exact ⟨rfl, rfl, rfl, rfl, rfl, rfl⟩

/-- Witness for the amended C7 with a failing classifier and a
recognizer that finds one ticker. -/
theorem C7_independent_failure_witness :
    (analyze_social_media_post (fun _ => Except.error "model crashed")
      (fun _ => Except.ok [Entity.mk "TSLA" "ORG"]) "m" "now" "txt" 1 2
      ).mentioned_stocks =
      (extract_entities (fun _ => Except.ok [Entity.mk "TSLA" "ORG"])
        "txt").stocks :=
  ((C7_independent_failure (fun _ => Except.error "model crashed")
    (fun _ => Except.ok [Entity.mk "TSLA" "ORG"]) "m" "now" "txt" 1 2).1
    "model crashed" rfl).1

/-- Counterexample to C8 as stated: two recognizer outputs that differ
in their location and person spans produce the very same merged record,
so the record cannot contain the full four-bucket entity bundle. -/
theorem C8_record_drops_buckets_counterexample :
    (extract_entities (fun _ => Except.ok
        [Entity.mk "Paris" "LOC", Entity.mk "Tim Cook" "PER"])
      "txt").locations = ["Paris"] ∧
    (extract_entities (fun _ => Except.ok
        [Entity.mk "Paris" "LOC", Entity.mk "Tim Cook" "PER"])
      "txt").persons = ["Tim Cook"] ∧
    analyze_social_media_post (fun _ => Except.ok ⟨"POSITIVE", 92/100⟩)
      (fun _ => Except.ok
        [Entity.mk "Paris" "LOC", Entity.mk "Tim Cook" "PER"])
      "m" "now" "txt" 1 2 =
    analyze_social_media_post (fun _ => Except.ok ⟨"POSITIVE", 92/100⟩)
      (fun _ => Except.ok []) "m" "now" "txt" 1 2 :=
  ⟨rfl, rfl, rfl⟩

/-- C8 amended: the merged record carries the caller's post and author
identifiers, the sentiment result's score, label and confidence, the
ticker and company buckets of the entity result (the location and
person buckets are dropped), the model identifier, and the timestamp. -/
theorem C8_record_composition
    (classifier : String → Except String RawResult)
    (recognizer : String → Except String (List Entity))
    (model_name now text : String) (kol_id post_id : ℤ) :
    (analyze_social_media_post classifier recognizer model_name now
      text kol_id post_id).post_id = post_id ∧
    (analyze_social_media_post classifier recognizer model_name now
      text kol_id post_id).kol_id = kol_id ∧
    (analyze_social_media_post classifier recognizer model_name now
      text kol_id post_id).sentiment_score =
        (analyze_text classifier model_name now text).sentiment_score ∧
    (analyze_social_media_post classifier recognizer model_name now
      text kol_id post_id).sentiment_label =
        (analyze_text classifier model_name now text).sentiment_label ∧
    (analyze_social_media_post classifier recognizer model_name now
      text kol_id post_id).confidence_score =
        (analyze_text classifier model_name now text).confidence_score ∧
    (analyze_social_media_post classifier recognizer model_name now
      text kol_id post_id).mentioned_stocks =
        (extract_entities recognizer text).stocks ∧
    (analyze_social_media_post classifier recognizer model_name now
      text kol_id post_id).mentioned_companies =
        (extract_entities recognizer text).companies ∧
    (analyze_social_media_post classifier recognizer model_name now
      text kol_id post_id).model_used = model_name ∧
    (analyze_social_media_post classifier recognizer model_name now
      text kol_id post_id).analysis_timestamp = now := by
  refine ⟨rfl, rfl, rfl, rfl, rfl, rfl, rfl, ?_, rfl⟩
  unfold analyze_social_media_post analyze_text
  cases classifier text <;> rfl

end SentientTrader
